import Mathlib

/-!
Shallow embedding of the roundcube email MCP service
(`app/email_service.py` and `app/server.py`).

Pure string-processing helpers (`parse_email_list`, `is_valid_email`,
`validate_emails`) are translated directly.  The network-effecting
functions (`send_email_smtp`, `save_to_sent_folder`,
`handle_send_email`) are embedded by passing an explicit oracle for
each network operation's outcome (`none` = the call succeeds,
`some e` = the call raises exception `e`) and by collecting an
explicit trace of the externally visible actions performed, in order.
Python exceptions are modelled by `Exc`, whose `kind` distinguishes
the `smtplib.SMTPException` subclasses the handler discriminates on
from all other exception classes.  The stdlib MIME serialization
(`MIMEMultipart.as_string`) is abstracted as a rendering of the
ordered header list plus the body; everything the claims depend on
(which headers are present, and that a single serialization is reused
verbatim) is preserved.
-/

/-- `SMTP_TIMEOUT = 30` from `email_service.py`. -/
def SMTP_TIMEOUT : Nat := 30

/-- Whitespace as stripped by Python's `str.strip()` (space, tab,
newline, carriage return, vertical tab, form feed). -/
def pyWhitespace (c : Char) : Bool :=
  c = ' ' || c = '\t' || c = '\n' || c = '\r' || c.toNat = 11 || c.toNat = 12

/-- `str.strip()` on the character list: drop whitespace from both
ends. -/
def stripChars (s : List Char) : List Char :=
  ((s.dropWhile pyWhitespace).reverse.dropWhile pyWhitespace).reverse

/-- `str.strip()`. -/
def strip (s : String) : String := ⟨stripChars s.data⟩

/-- `str.split(sep)` for a one-character separator: split at every
occurrence, producing one more piece than there are separators; the
empty string yields `[[]]`. -/
def splitOnChar (sep : Char) : List Char → List (List Char)
  | [] => [[]]
  | c :: cs =>
    match splitOnChar sep cs with
    | r :: rs => if c = sep then [] :: r :: rs else (c :: r) :: rs
    | [] => [[c]]

/-- `str.split(sep)` on strings. -/
def splitStr (sep : Char) (s : String) : List String :=
  (splitOnChar sep s.data).map (fun l => ⟨l⟩)

/-- Characters allowed in a local-part atom of `EMAIL_PATTERN`:
`[a-zA-Z0-9!#$%&'*+/=?^_`{|}~-]` (39 is the apostrophe, 96 the
backtick, 123 and 125 the braces). -/
def isAtomChar (c : Char) : Bool :=
  c.isAlphanum || c = '!' || c = '#' || c = '$' || c = '%' || c = '&' ||
  c.toNat = 39 || c = '*' || c = '+' || c = '/' || c = '=' || c = '?' ||
  c = '^' || c = '_' || c.toNat = 96 || c.toNat = 123 || c = '|' ||
  c.toNat = 125 || c = '~' || c = '-'

/-- One local-part atom: nonempty run of atom characters. -/
def atomOk (s : String) : Bool :=
  !s.data.isEmpty && s.data.all isAtomChar

/-- Characters allowed inside a domain label: `[a-zA-Z0-9-]`. -/
def isLabelChar (c : Char) : Bool :=
  c.isAlphanum || c = '-'

/-- One domain label of `EMAIL_PATTERN`:
`[a-zA-Z0-9](?:[a-zA-Z0-9-]*[a-zA-Z0-9])?` — nonempty, label chars
only, first and last alphanumeric. -/
def labelOk (s : String) : Bool :=
  !s.data.isEmpty && s.data.all isLabelChar &&
    s.data.head?.any Char.isAlphanum && s.data.getLast?.any Char.isAlphanum

/-- Local part of `EMAIL_PATTERN`: atoms separated by single dots,
no leading/trailing/consecutive dots. -/
def localOk (s : String) : Bool :=
  (splitStr '.' s).all atomOk

/-- Domain part of `EMAIL_PATTERN`: `(?:label\.)+label` — at least two
dot-separated labels. -/
def domainOk (s : String) : Bool :=
  match splitStr '.' s with
  | _ :: _ :: _ => (splitStr '.' s).all labelOk
  | _ => false

/-- `is_valid_email`: strip the input, then match `EMAIL_PATTERN`
against the whole string.  The pattern forces exactly one `@`, with a
matching local part before it and domain part after it. -/
def is_valid_email (email : String) : Bool :=
  match splitStr '@' (strip email) with
  | [l, d] => localOk l && domainOk d
  | _ => false

/-- `parse_email_list`: split on commas, strip each piece, keep the
pieces that are nonempty after stripping. -/
def parse_email_list (emails : String) : List String :=
  ((splitStr ',' emails).map strip).filter (fun e => e != "")

/-- The `ValueError` message raised by `validate_emails` for an
invalid address. -/
def invalidEmailMsg (email : String) : String :=
  "\x27" ++ email ++ "\x27 is not a valid email address"

/-- `validate_emails`: check each address in order, raising
(`Except.error`) at the first invalid one. -/
def validate_emails : List String → Except String Unit
  | [] => Except.ok ()
  | e :: rest =>
    if is_valid_email e then validate_emails rest
    else Except.error (invalidEmailMsg e)

/-- Connection configuration dictionary.  Keys read with
`config.get(...)` in the source are `Option`s here (`none` = key
absent); keys read with `config[...]` are plain fields. -/
structure Config where
  smtp_host : String
  smtp_port : Nat
  smtp_use_tls : Bool
  username : String
  password : String
  imap_host : Option String
  imap_port : Option Nat
  save_to_sent : Option Bool
  sent_folder : Option String
deriving DecidableEq

/-- Exception classes the code discriminates on. -/
inductive ExcKind where
  /-- `smtplib.SMTPAuthenticationError` -/
  | smtpAuth
  /-- `smtplib.SMTPConnectError` -/
  | smtpConnect
  /-- any other `smtplib.SMTPException` -/
  | smtpOther
  /-- any exception that is not an `smtplib.SMTPException`
  (`OSError`, `imaplib.IMAP4.error`, ...) -/
  | otherError
deriving DecidableEq

/-- Whether the exception class is a subclass of
`smtplib.SMTPException`. -/
def ExcKind.isSmtp : ExcKind → Bool
  | smtpAuth => true
  | smtpConnect => true
  | smtpOther => true
  | otherError => false

/-- A raised exception: its class and its `str(e)` message. -/
structure Exc where
  kind : ExcKind
  msg : String
deriving DecidableEq

/-- Externally visible actions, in program order. -/
inductive Event where
  /-- `smtplib.SMTP(host, port, timeout=...)` -/
  | connectPlain (host : String) (port : Nat) (timeout : Nat)
  /-- `server.ehlo()` -/
  | ehlo
  /-- `server.starttls(context=...)`; the flag records that the
  context is `ssl.create_default_context()` -/
  | startTls (defaultContext : Bool)
  /-- `smtplib.SMTP_SSL(host, port, context=..., timeout=...)` -/
  | connectSsl (host : String) (port : Nat) (defaultContext : Bool) (timeout : Nat)
  /-- `server.login(user, password)` -/
  | smtpLogin (user : String) (pass : String)
  /-- `server.sendmail(sender, recipients, message)` -/
  | sendmail (sender : String) (recipients : List String) (message : String)
  /-- `server.quit()` -/
  | smtpQuit
  /-- `imaplib.IMAP4_SSL(host, port)` -/
  | imapConnectSsl (host : String) (port : Nat)
  /-- `imap.login(user, password)` -/
  | imapLogin (user : String) (pass : String)
  /-- `imap.append(folder, flags, idate, message)` -/
  | imapAppend (folder : String) (flags : String) (idate : String) (message : String)
  /-- `imap.logout()` -/
  | imapLogout
  /-- `logger.warning(message)` -/
  | logWarning (message : String)
deriving DecidableEq

/-- Oracle for the SMTP-side network operations: `none` means the
call succeeds, `some e` means it raises `e`.  The two `ehlo` calls of
the STARTTLS path get independent outcomes. -/
structure SmtpNet where
  connectPlain : Option Exc
  ehlo1 : Option Exc
  starttls : Option Exc
  ehlo2 : Option Exc
  connectSsl : Option Exc
  login : Option Exc
  sendmail : Option Exc
  quit : Option Exc
deriving DecidableEq

/-- Oracle for the IMAP-side network operations. -/
structure ImapNet where
  connect : Option Exc
  login : Option Exc
  append : Option Exc
  logout : Option Exc
deriving DecidableEq

/-- `", ".join(l)` -/
def joinComma (l : List String) : String :=
  String.intercalate ", " l

/-- The ordered header list of the message built by
`send_email_smtp`: From, To, Cc only when `cc_list` is nonempty,
Subject, Date. -/
def buildHeaders (username : String) (to_list cc_list : List String)
    (subject date : String) : List (String × String) :=
  [("From", username), ("To", joinComma to_list)] ++
    (if cc_list.isEmpty then [] else [("Cc", joinComma cc_list)]) ++
    [("Subject", subject), ("Date", date)]

/-- Rendering of the message (`msg.as_string()`), abstracting the
stdlib MIME machinery as the ordered headers followed by the body. -/
def serializeMessage (headers : List (String × String)) (body : String) : String :=
  String.intercalate "\n" (headers.map (fun h => h.1 ++ ": " ++ h.2)) ++ "\n\n" ++ body

/-- `msg_string = msg.as_string()`: the single serialization computed
once in `send_email_smtp` and reused for both phases. -/
def msgString (config : Config) (to_list cc_list : List String)
    (subject body date : String) : String :=
  serializeMessage (buildHeaders config.username to_list cc_list subject date) body

/-- The warning logged when the archival phase fails
(`logger.warning(f"Failed to save email to Sent folder: {e}")`). -/
def warnText (e : Exc) : String :=
  "Failed to save email to Sent folder: " ++ e.msg

/-- `save_to_sent_folder`: resolve store host/port/folder with their
`config.get` defaults, connect over implicit TLS, login, append the
message with the `\Seen` flag; the `finally` block logs out whenever
the connection was established, swallowing every logout error
(`except Exception: pass`), so the logout outcome never affects the
result. -/
def save_to_sent_folder (config : Config) (net : ImapNet)
    (msg_string idate : String) : Except Exc Unit × List Event :=
  let imap_host := config.imap_host.getD config.smtp_host
  let imap_port := config.imap_port.getD 993
  let sent_folder := config.sent_folder.getD "Sent"
  let ev0 := [Event.imapConnectSsl imap_host imap_port]
  match net.connect with
  | some e => (Except.error e, ev0)
  | none =>
    let ev1 := ev0 ++ [Event.imapLogin config.username config.password]
    match net.login with
    | some e => (Except.error e, ev1 ++ [Event.imapLogout])
    | none =>
      let ev2 := ev1 ++ [Event.imapAppend sent_folder "\\Seen" idate msg_string]
      match net.append with
      | some e => (Except.error e, ev2 ++ [Event.imapLogout])
      | none => (Except.ok (), ev2 ++ [Event.imapLogout])

/-- The login-and-send tail of the submission `try` body, common to
both connection modes.  Returns (outcome, server-was-assigned,
events). -/
def afterConnect (net : SmtpNet) (username password : String)
    (all_recipients : List String) (msg_string : String) (evs : List Event) :
    Except Exc Unit × Bool × List Event :=
  let evs1 := evs ++ [Event.smtpLogin username password]
  match net.login with
  | some e => (Except.error e, true, evs1)
  | none =>
    let evs2 := evs1 ++ [Event.sendmail username all_recipients msg_string]
    match net.sendmail with
    | some e => (Except.error e, true, evs2)
    | none => (Except.ok (), true, evs2)

/-- The `try` body of the submission phase: STARTTLS mode opens a
plaintext session, greets, upgrades with the default-verifying
context, greets again; otherwise the session is opened as implicit
TLS with the same context.  The middle component records whether
`server` was assigned (it stays `None` exactly when the constructor
itself raised). -/
def submissionBody (config : Config) (net : SmtpNet)
    (all_recipients : List String) (msg_string : String) :
    Except Exc Unit × Bool × List Event :=
  if config.smtp_use_tls then
    let evs1 := [Event.connectPlain config.smtp_host config.smtp_port SMTP_TIMEOUT]
    match net.connectPlain with
    | some e => (Except.error e, false, evs1)
    | none =>
      let evs2 := evs1 ++ [Event.ehlo]
      match net.ehlo1 with
      | some e => (Except.error e, true, evs2)
      | none =>
        let evs3 := evs2 ++ [Event.startTls true]
        match net.starttls with
        | some e => (Except.error e, true, evs3)
        | none =>
          let evs4 := evs3 ++ [Event.ehlo]
          match net.ehlo2 with
          | some e => (Except.error e, true, evs4)
          | none =>
            afterConnect net config.username config.password all_recipients msg_string evs4
  else
    let evs1 := [Event.connectSsl config.smtp_host config.smtp_port true SMTP_TIMEOUT]
    match net.connectSsl with
    | some e => (Except.error e, false, evs1)
    | none =>
      afterConnect net config.username config.password all_recipients msg_string evs1

/-- The submission phase including its `finally` block: when `server`
was assigned, `server.quit()` is attempted; a quit error that is an
`smtplib.SMTPException` is swallowed (`except smtplib.SMTPException:
pass`), while a quit error of any other class propagates out of the
`finally`, replacing the body's outcome. -/
def submissionPhase (config : Config) (net : SmtpNet)
    (all_recipients : List String) (msg_string : String) :
    Except Exc Unit × List Event :=
  match submissionBody config net all_recipients msg_string with
  | (r, serverSet, evs) =>
    if serverSet then
      let evs1 := evs ++ [Event.smtpQuit]
      match net.quit with
      | some e => if e.kind.isSmtp then (r, evs1) else (Except.error e, evs1)
      | none => (r, evs1)
    else (r, evs)

/-- `send_email_smtp`: serialize the message once, submit it to
`to_list ++ cc_list`, and — only when the submission phase finished
without an exception and `config.get("save_to_sent", True)` holds —
attempt the archival, catching every archival exception and recording
it as a warning only. -/
def send_email_smtp (config : Config) (snet : SmtpNet) (inet : ImapNet)
    (to_list cc_list : List String) (subject body date idate : String) :
    Except Exc Unit × List Event :=
  let msg_string := msgString config to_list cc_list subject body date
  let all_recipients := to_list ++ cc_list
  match submissionPhase config snet all_recipients msg_string with
  | (Except.error e, evs) => (Except.error e, evs)
  | (Except.ok _, evs) =>
    if config.save_to_sent.getD true then
      match save_to_sent_folder config inet msg_string idate with
      | (Except.error e, aevs) =>
        (Except.ok (), evs ++ aevs ++ [Event.logWarning (warnText e)])
      | (Except.ok _, aevs) => (Except.ok (), evs ++ aevs)
    else (Except.ok (), evs)

/-- Outcome of `load_config()` as the handler observes it. -/
inductive ConfigError where
  /-- `FileNotFoundError` -/
  | fileNotFound (msg : String)
  /-- `json.JSONDecodeError` -/
  | jsonDecode (msg : String)
  /-- `KeyError` -/
  | keyError (msg : String)
deriving DecidableEq

/-- The `send_email` tool arguments; `none` models an absent key.
(`to` is a reserved token in Lean, hence the field name `toArg`.) -/
structure Args where
  toArg : Option String
  cc : Option String
  subject : Option String
  body : Option String
deriving DecidableEq

/-- Error text produced by the three configuration `except` arms. -/
def configErrorText : ConfigError → String
  | ConfigError.fileNotFound m => "Error: " ++ m
  | ConfigError.jsonDecode m => "Error: Invalid JSON in config.json: " ++ m
  | ConfigError.keyError m => "Error: " ++ m

/-- Error text for an exception escaping `send_email_smtp`, following
the handler's `except` arms in order. -/
def smtpErrorText (e : Exc) : String :=
  match e.kind with
  | ExcKind.smtpAuth =>
    "Error: SMTP authentication failed. Check username/password in config.json"
  | ExcKind.smtpConnect => "Error: Could not connect to SMTP server: " ++ e.msg
  | ExcKind.smtpOther => "Error: SMTP error: " ++ e.msg
  | ExcKind.otherError => "Error: Unexpected error: " ++ e.msg

/-- `cc_list` as computed by the handler:
`parse_email_list(arguments.get("cc", "")) if arguments.get("cc") else []`
(`None` and the empty string are both falsy). -/
def ccListOf : Option String → List String
  | none => []
  | some c => if c = "" then [] else parse_email_list c

/-- `handle_send_email`: load config, parse recipients, check the
to-list is nonempty, validate to then cc, reject an empty subject,
send, and build the success text (with the CC suffix only when
`cc_list` is nonempty).  The result pairs the returned text with the
network trace of the send (empty when no send was attempted). -/
def handle_send_email (configRes : Except ConfigError Config)
    (snet : SmtpNet) (inet : ImapNet) (args : Args) (date idate : String) :
    String × List Event :=
  match configRes with
  | Except.error ce => (configErrorText ce, [])
  | Except.ok config =>
    let to_list := parse_email_list (args.toArg.getD "")
    let cc_list := ccListOf args.cc
    if to_list.isEmpty then
      ("Error: No valid recipients in \x27to\x27 field", [])
    else
      match validate_emails to_list with
      | Except.error m => ("Error: Invalid email address - " ++ m, [])
      | Except.ok _ =>
        match (if cc_list.isEmpty then Except.ok () else validate_emails cc_list) with
        | Except.error m => ("Error: Invalid email address - " ++ m, [])
        | Except.ok _ =>
          let subject := args.subject.getD ""
          let body := args.body.getD ""
          if subject = "" then ("Error: Subject cannot be empty", [])
          else
            match send_email_smtp config snet inet to_list cc_list subject body date idate with
            | (Except.error e, evs) => (smtpErrorText e, evs)
            | (Except.ok _, evs) =>
              let base := "Email sent successfully to " ++ joinComma to_list
              (if cc_list.isEmpty then base
               else base ++ " (CC: " ++ joinComma cc_list ++ ")", evs)

deriving instance DecidableEq for Except

/-! ### Concrete fixtures used by witnesses and counterexamples -/

/-- An implicit-TLS configuration with the store-side keys absent. -/
def cfgSsl : Config :=
  { smtp_host := "smtp.example.com", smtp_port := 465, smtp_use_tls := false,
    username := "u@example.com", password := "pw",
    imap_host := none, imap_port := none, save_to_sent := some true, sent_folder := none }

/-- A STARTTLS configuration. -/
def cfgTls : Config :=
  { smtp_host := "smtp.example.com", smtp_port := 587, smtp_use_tls := true,
    username := "u@example.com", password := "pw",
    imap_host := none, imap_port := none, save_to_sent := some true, sent_folder := none }

/-- All SMTP operations succeed. -/
def snetOk : SmtpNet :=
  { connectPlain := none, ehlo1 := none, starttls := none, ehlo2 := none,
    connectSsl := none, login := none, sendmail := none, quit := none }

/-- All SMTP operations succeed except `quit`, which raises a
non-`SMTPException` error. -/
def snetBadQuit : SmtpNet :=
  { connectPlain := none, ehlo1 := none, starttls := none, ehlo2 := none,
    connectSsl := none, login := none, sendmail := none,
    quit := some ⟨ExcKind.otherError, "connection reset"⟩ }

/-- All SMTP operations succeed except `quit`, which raises an
`SMTPException`. -/
def snetSmtpQuit : SmtpNet :=
  { connectPlain := none, ehlo1 := none, starttls := none, ehlo2 := none,
    connectSsl := none, login := none, sendmail := none,
    quit := some ⟨ExcKind.smtpOther, "quit failed"⟩ }

/-- All IMAP operations succeed. -/
def inetOk : ImapNet :=
  { connect := none, login := none, append := none, logout := none }

/-- The IMAP login is rejected (store credentials rejected). -/
def inetBadLogin : ImapNet :=
  { connect := none, login := some ⟨ExcKind.otherError, "auth rejected"⟩,
    append := none, logout := none }

/-! ### Trace-shape helper lemmas -/

/-- Every event of the `afterConnect` tail is either inherited from
the prefix or one of the login/sendmail events with the exact
arguments passed in. -/
theorem afterConnect_mem (net : SmtpNet) (u p : String) (r : List String)
    (m : String) (evs : List Event) :
    ∀ ev ∈ (afterConnect net u p r m evs).2.2,
      ev ∈ evs ∨ ev = Event.smtpLogin u p ∨ ev = Event.sendmail u r m := by
  intro ev hev
  simp only [afterConnect] at hev
  split at hev <;> try split at hev
  all_goals simp only [List.mem_append, List.mem_singleton] at hev
  all_goals tauto

/-- Every event of the submission `try` body is one of the connection
events, a login, or a sendmail of the exact message passed in. -/
theorem submissionBody_mem (config : Config) (net : SmtpNet)
    (r : List String) (m : String) :
    ∀ ev ∈ (submissionBody config net r m).2.2,
      ev = Event.connectPlain config.smtp_host config.smtp_port SMTP_TIMEOUT ∨
      ev = Event.ehlo ∨ ev = Event.startTls true ∨
      ev = Event.connectSsl config.smtp_host config.smtp_port true SMTP_TIMEOUT ∨
      ev = Event.smtpLogin config.username config.password ∨
      ev = Event.sendmail config.username r m := by
  intro ev hev
  simp only [submissionBody] at hev
  split at hev
  all_goals (split at hev <;> try split at hev <;> try split at hev <;> try split at hev)
  all_goals
    first
    | (have h := afterConnect_mem net config.username config.password r m _ ev hev;
       simp at h; tauto)
    | (simp at hev; tauto)

/-- Every event of the submission phase is a body event or the
`quit` of the `finally` block. -/
theorem submissionPhase_mem (config : Config) (net : SmtpNet)
    (r : List String) (m : String) :
    ∀ ev ∈ (submissionPhase config net r m).2,
      ev = Event.connectPlain config.smtp_host config.smtp_port SMTP_TIMEOUT ∨
      ev = Event.ehlo ∨ ev = Event.startTls true ∨
      ev = Event.connectSsl config.smtp_host config.smtp_port true SMTP_TIMEOUT ∨
      ev = Event.smtpLogin config.username config.password ∨
      ev = Event.sendmail config.username r m ∨
      ev = Event.smtpQuit := by
  intro ev hev
  simp only [submissionPhase] at hev
  split at hev <;> try split at hev <;> try split at hev
  all_goals try simp only [List.mem_append, List.mem_singleton] at hev
  all_goals
    first
    | (rcases hev with hev | hev;
       · have h := submissionBody_mem config net r m ev hev; tauto
       · tauto)
    | (have h := submissionBody_mem config net r m ev hev; tauto)

/-- Every event of `save_to_sent_folder` is one of its four IMAP
actions, and any append carries exactly the message and internal
date passed in. -/
theorem save_to_sent_folder_mem (config : Config) (net : ImapNet)
    (m idate : String) :
    ∀ ev ∈ (save_to_sent_folder config net m idate).2,
      ev = Event.imapConnectSsl (config.imap_host.getD config.smtp_host)
            (config.imap_port.getD 993) ∨
      ev = Event.imapLogin config.username config.password ∨
      ev = Event.imapAppend (config.sent_folder.getD "Sent") "\\Seen" idate m ∨
      ev = Event.imapLogout := by
  intro ev hev
  simp only [save_to_sent_folder] at hev
  split at hev <;> try split at hev <;> try split at hev
  all_goals simp at hev
  all_goals tauto

/-- Every event of `send_email_smtp` is a submission-phase event, an
archival event, or the archival-failure warning; in particular every
`sendmail` and every `imapAppend` in the trace carries the single
serialization `msgString ...`. -/
theorem send_email_smtp_mem (config : Config) (snet : SmtpNet) (inet : ImapNet)
    (to_list cc_list : List String) (subject body date idate : String) :
    ∀ ev ∈ (send_email_smtp config snet inet to_list cc_list subject body date idate).2,
      ev = Event.connectPlain config.smtp_host config.smtp_port SMTP_TIMEOUT ∨
      ev = Event.ehlo ∨ ev = Event.startTls true ∨
      ev = Event.connectSsl config.smtp_host config.smtp_port true SMTP_TIMEOUT ∨
      ev = Event.smtpLogin config.username config.password ∨
      ev = Event.sendmail config.username (to_list ++ cc_list)
            (msgString config to_list cc_list subject body date) ∨
      ev = Event.smtpQuit ∨
      ev = Event.imapConnectSsl (config.imap_host.getD config.smtp_host)
            (config.imap_port.getD 993) ∨
      ev = Event.imapLogin config.username config.password ∨
      ev = Event.imapAppend (config.sent_folder.getD "Sent") "\\Seen" idate
            (msgString config to_list cc_list subject body date) ∨
      ev = Event.imapLogout ∨
      (∃ w, ev = Event.logWarning w) := by
  intro ev hev
  unfold send_email_smtp at hev
  rcases hp : submissionPhase config snet (to_list ++ cc_list)
      (msgString config to_list cc_list subject body date) with ⟨r, evs⟩
  have hsub : ∀ e ∈ evs, e = Event.connectPlain config.smtp_host config.smtp_port SMTP_TIMEOUT ∨
      e = Event.ehlo ∨ e = Event.startTls true ∨
      e = Event.connectSsl config.smtp_host config.smtp_port true SMTP_TIMEOUT ∨
      e = Event.smtpLogin config.username config.password ∨
      e = Event.sendmail config.username (to_list ++ cc_list)
            (msgString config to_list cc_list subject body date) ∨
      e = Event.smtpQuit := by
    intro e he
    exact submissionPhase_mem config snet (to_list ++ cc_list)
      (msgString config to_list cc_list subject body date) e (by rw [hp]; exact he)
  simp only [hp] at hev
  cases r with
  | error e =>
    have h := hsub ev hev
    tauto
  | ok u =>
    rcases hq : save_to_sent_folder config inet
        (msgString config to_list cc_list subject body date) idate with ⟨ar, aevs⟩
    have hsave : ∀ e ∈ aevs,
        e = Event.imapConnectSsl (config.imap_host.getD config.smtp_host)
              (config.imap_port.getD 993) ∨
        e = Event.imapLogin config.username config.password ∨
        e = Event.imapAppend (config.sent_folder.getD "Sent") "\\Seen" idate
              (msgString config to_list cc_list subject body date) ∨
        e = Event.imapLogout := by
      intro e he
      exact save_to_sent_folder_mem config inet
        (msgString config to_list cc_list subject body date) idate e (by rw [hq]; exact he)
    cases hsv : config.save_to_sent.getD true with
    | false =>
      simp [hsv] at hev
      have h := hsub ev hev
      tauto
    | true =>
      cases ar with
      | error e =>
        simp [hsv, hq] at hev
        rcases hev with hev | hev | hev
        · have h := hsub ev hev; tauto
        · have h := hsave ev hev; tauto
        · subst hev
          exact Or.inr (Or.inr (Or.inr (Or.inr (Or.inr (Or.inr (Or.inr (Or.inr
            (Or.inr (Or.inr (Or.inr ⟨_, rfl⟩))))))))))
      | ok v =>
        simp [hsv, hq] at hev
        rcases hev with hev | hev
        · have h := hsub ev hev; tauto
        · have h := hsave ev hev; tauto

/-! ### Claim theorems -/

/-- C1: for every call to `send_email_smtp` whose submission phase
completes successfully, the result is success whatever the archival
oracle does (no archival failure propagates), and any archival
failure is recorded in the trace only as the warning
`Failed to save email to Sent folder: ...`. -/
theorem c1_archival_failure_contained (config : Config) (snet : SmtpNet)
    (inet : ImapNet) (to_list cc_list : List String)
    (subject body date idate : String)
    (hsub : (submissionPhase config snet (to_list ++ cc_list)
        (msgString config to_list cc_list subject body date)).1 = Except.ok ()) :
    (send_email_smtp config snet inet to_list cc_list subject body date idate).1 =
      Except.ok () ∧
    (∀ e, config.save_to_sent.getD true = true →
      (save_to_sent_folder config inet
          (msgString config to_list cc_list subject body date) idate).1 =
        Except.error e →
      Event.logWarning (warnText e) ∈
        (send_email_smtp config snet inet to_list cc_list subject body date idate).2) := by
  rcases hp : submissionPhase config snet (to_list ++ cc_list)
      (msgString config to_list cc_list subject body date) with ⟨r, evs⟩
  rw [hp] at hsub
  simp only at hsub
  subst hsub
  rcases hq : save_to_sent_folder config inet
      (msgString config to_list cc_list subject body date) idate with ⟨ar, aevs⟩
  cases hsv : config.save_to_sent.getD true with
  | false =>
    constructor
    · simp [send_email_smtp, hp, hsv]
    · intro e hs
      simp [hsv] at hs
  | true =>
    cases ar with
    | error e0 =>
      constructor
      · simp [send_email_smtp, hp, hq, hsv]
      · intro e _ hae
        have he : e0 = e := by simpa using hae
        subst he
        simp [send_email_smtp, hp, hq, hsv]
    | ok v =>
      constructor
      · simp [send_email_smtp, hp, hq, hsv]
      · intro e _ hae
        simp at hae

/-- Witness for C1: concrete successful submission with the store
login rejected; the send still returns success and the warning is in
the trace. -/
theorem c1_archival_failure_contained_witness :
    (send_email_smtp cfgSsl snetOk inetBadLogin ["a@b.com"] [] "S" "B" "d" "i").1 =
      Except.ok () ∧
    Event.logWarning (warnText ⟨ExcKind.otherError, "auth rejected"⟩) ∈
      (send_email_smtp cfgSsl snetOk inetBadLogin ["a@b.com"] [] "S" "B" "d" "i").2 :=
  ⟨(c1_archival_failure_contained cfgSsl snetOk inetBadLogin ["a@b.com"] []
      "S" "B" "d" "i" (by decide)).1,
   (c1_archival_failure_contained cfgSsl snetOk inetBadLogin ["a@b.com"] []
      "S" "B" "d" "i" (by decide)).2
     ⟨ExcKind.otherError, "auth rejected"⟩ (by decide) (by decide)⟩

/-- C2: in every call to `send_email_smtp`, every string handed to
the transport `sendmail` and every string handed to the mail-store
`append` is the single serialization `msgString ...` computed once at
the start of the call — so whenever both phases run, the archived
string is byte-identical to the transmitted string. -/
theorem c2_roundtrip_single_serialization (config : Config) (snet : SmtpNet)
    (inet : ImapNet) (to_list cc_list : List String)
    (subject body date idate : String) :
    (∀ s r m, Event.sendmail s r m ∈
        (send_email_smtp config snet inet to_list cc_list subject body date idate).2 →
      m = msgString config to_list cc_list subject body date) ∧
    (∀ f fl d m, Event.imapAppend f fl d m ∈
        (send_email_smtp config snet inet to_list cc_list subject body date idate).2 →
      m = msgString config to_list cc_list subject body date) := by
  constructor
  · intro s r m hm
    have h := send_email_smtp_mem config snet inet to_list cc_list subject body date
      idate _ hm
    simp only [Event.sendmail.injEq] at h
    rcases h with h|h|h|h|h|h|h|h|h|h|h|⟨w, h⟩ <;> first
      | (exact h.2.2)
      | (exact absurd h (by simp))
  · intro f fl d m hm
    have h := send_email_smtp_mem config snet inet to_list cc_list subject body date
      idate _ hm
    simp only [Event.imapAppend.injEq] at h
    rcases h with h|h|h|h|h|h|h|h|h|h|h|⟨w, h⟩ <;> first
      | (exact h.2.2.2)
      | (exact absurd h (by simp))

/-- Witness for C2: in a concrete call the transmitted string is the
single serialization (its literal value shown explicitly). -/
theorem c2_roundtrip_single_serialization_witness :
    "From: u@example.com\nTo: a@b.com\nSubject: S\nDate: d\n\nB" =
      msgString cfgSsl ["a@b.com"] [] "S" "B" "d" :=
  (c2_roundtrip_single_serialization cfgSsl snetOk inetOk ["a@b.com"] []
    "S" "B" "d" "i").1 "u@example.com" ["a@b.com"]
    "From: u@example.com\nTo: a@b.com\nSubject: S\nDate: d\n\nB" (by decide)

/-- The archival phase always opens its store session first, to the
`config.get` defaults: host `imap_host` falling back to `smtp_host`,
port `imap_port` falling back to `993`. -/
theorem save_to_sent_folder_head (config : Config) (net : ImapNet) (m d : String) :
    (save_to_sent_folder config net m d).2.head? =
      some (Event.imapConnectSsl (config.imap_host.getD config.smtp_host)
        (config.imap_port.getD 993)) := by
  simp only [save_to_sent_folder]
  split <;> try split <;> try split
  all_goals simp

/-- C3 counterexample: a concrete configuration with the store-side
host and port unset and submission port 465; the archival phase
connects to port 993, not to the submission port. -/
theorem c3_counterexample :
    cfgSsl.imap_host = none ∧ cfgSsl.imap_port = none ∧ cfgSsl.smtp_port = 465 ∧
    (save_to_sent_folder cfgSsl inetOk "m" "d").2.head? =
      some (Event.imapConnectSsl "smtp.example.com" 993) ∧
    ¬ (save_to_sent_folder cfgSsl inetOk "m" "d").2.head? =
      some (Event.imapConnectSsl cfgSsl.smtp_host cfgSsl.smtp_port) := by
  decide

/-- C3 amended: when the store-side host is unset the archival phase
connects to the submission host; when the store-side port is unset it
connects to port 993 (the standard implicit-TLS store port), not to
the submission port. -/
theorem c3_store_defaults (config : Config) (net : ImapNet) (m d : String) :
    (config.imap_host = none →
      (save_to_sent_folder config net m d).2.head? =
        some (Event.imapConnectSsl config.smtp_host (config.imap_port.getD 993))) ∧
    (config.imap_port = none →
      (save_to_sent_folder config net m d).2.head? =
        some (Event.imapConnectSsl (config.imap_host.getD config.smtp_host) 993)) := by
  constructor <;> intro h <;> rw [save_to_sent_folder_head] <;> simp [h]

/-- Witness for C3's amended theorem at a concrete configuration with
both store-side keys unset. -/
theorem c3_store_defaults_witness :
    (save_to_sent_folder cfgSsl inetOk "m" "d").2.head? =
      some (Event.imapConnectSsl (cfgSsl.imap_host.getD cfgSsl.smtp_host) 993) :=
  (c3_store_defaults cfgSsl inetOk "m" "d").2 (by decide)

/-- C4 counterexample: a request whose subject is the single blank
`" "` is not rejected — the handler proceeds to submission (a
`sendmail` is in the trace) and reports success. -/
theorem c4_counterexample :
    (handle_send_email (Except.ok cfgSsl) snetOk inetOk
        ⟨some "a@b.com", none, some " ", some "B"⟩ "d" "i").1 ≠
      "Error: Subject cannot be empty" ∧
    Event.sendmail cfgSsl.username ["a@b.com"]
        (msgString cfgSsl ["a@b.com"] [] " " "B" "d") ∈
      (handle_send_email (Except.ok cfgSsl) snetOk inetOk
        ⟨some "a@b.com", none, some " ", some "B"⟩ "d" "i").2 := by
  decide

/-- C4 amended: for every request whose subject is the empty string
(or absent), once the earlier checks pass the handler fails with the
`EmptySubject` textual error and attempts no submission (empty
trace); a subject made only of blanks is *not* rejected. -/
theorem c4_empty_subject (config : Config) (snet : SmtpNet) (inet : ImapNet)
    (toOpt ccOpt subjOpt bodyOpt : Option String) (d i : String)
    (hto : (parse_email_list (toOpt.getD "")).isEmpty = false)
    (hv : validate_emails (parse_email_list (toOpt.getD "")) = Except.ok ())
    (hvc : (if (ccListOf ccOpt).isEmpty then Except.ok ()
            else validate_emails (ccListOf ccOpt)) = Except.ok ())
    (hs : subjOpt.getD "" = "") :
    handle_send_email (Except.ok config) snet inet ⟨toOpt, ccOpt, subjOpt, bodyOpt⟩ d i =
      ("Error: Subject cannot be empty", []) := by
  simp only [List.isEmpty_iff] at hvc
  simp [handle_send_email, hto, hv, hvc, hs]

/-- Witness for C4's amended theorem at a concrete request with an
empty subject. -/
theorem c4_empty_subject_witness :
    handle_send_email (Except.ok cfgSsl) snetOk inetOk
        ⟨some "a@b.com", none, some "", some "B"⟩ "d" "i" =
      ("Error: Subject cannot be empty", []) :=
  c4_empty_subject cfgSsl snetOk inetOk (some "a@b.com") none (some "") (some "B")
    "d" "i" (by decide) (by decide) (by decide) (by decide)

/-- C5 counterexample: with every submission step succeeding but
`quit` raising a non-`SMTPException` error, the close failure is not
suppressed — it replaces the successful outcome of the body. -/
theorem c5_counterexample :
    (submissionBody cfgSsl snetBadQuit ["a@b.com"] "m").1 = Except.ok () ∧
    (submissionPhase cfgSsl snetBadQuit ["a@b.com"] "m").1 =
      Except.error ⟨ExcKind.otherError, "connection reset"⟩ := by
  decide

/-- C5 amended: whenever the submission session was opened
(`server` assigned), it is closed on every exit path; a close error
of the submission-protocol class (`smtplib.SMTPException`) is
suppressed and never replaces the body's outcome, but a close error
of any other class propagates and replaces it. -/
theorem c5_close_discipline (config : Config) (net : SmtpNet)
    (r : List String) (m : String)
    (hset : (submissionBody config net r m).2.1 = true) :
    Event.smtpQuit ∈ (submissionPhase config net r m).2 ∧
    (∀ e, net.quit = some e → e.kind.isSmtp = true →
      (submissionPhase config net r m).1 = (submissionBody config net r m).1) ∧
    (net.quit = none →
      (submissionPhase config net r m).1 = (submissionBody config net r m).1) ∧
    (∀ e, net.quit = some e → e.kind.isSmtp = false →
      (submissionPhase config net r m).1 = Except.error e) := by
  rcases hb : submissionBody config net r m with ⟨br, bset, bevs⟩
  have hset2 : bset = true := by rw [hb] at hset; exact hset
  subst hset2
  refine ⟨?_, ?_, ?_, ?_⟩
  · cases hq : net.quit with
    | none => simp [submissionPhase, hb, hq]
    | some e => cases hk : e.kind.isSmtp <;> simp [submissionPhase, hb, hq, hk]
  · intro e hq hk
    simp [submissionPhase, hb, hq, hk]
  · intro hq
    simp [submissionPhase, hb, hq]
  · intro e hq hk
    simp [submissionPhase, hb, hq, hk]

/-- Witness for C5's amended theorem: a concrete run whose `quit`
raises an `SMTPException`; the quit is in the trace and the outcome
is the body's. -/
theorem c5_close_discipline_witness :
    Event.smtpQuit ∈ (submissionPhase cfgSsl snetSmtpQuit ["a@b.com"] "m").2 ∧
    (submissionPhase cfgSsl snetSmtpQuit ["a@b.com"] "m").1 =
      (submissionBody cfgSsl snetSmtpQuit ["a@b.com"] "m").1 :=
  ⟨(c5_close_discipline cfgSsl snetSmtpQuit ["a@b.com"] "m" (by decide)).1,
   (c5_close_discipline cfgSsl snetSmtpQuit ["a@b.com"] "m" (by decide)).2.1
     ⟨ExcKind.smtpOther, "quit failed"⟩ (by decide) (by decide)⟩

/-- C6: `validate_emails` succeeds on the empty list and on any list
of valid addresses, and on any list whose first invalid address is
`bad` it fails with the `InvalidAddress` error naming exactly `bad`
(fail-fast, first in input order). -/
theorem c6_validate_emails_first_failure :
    validate_emails [] = Except.ok () ∧
    (∀ emails : List String, (∀ e ∈ emails, is_valid_email e = true) →
      validate_emails emails = Except.ok ()) ∧
    (∀ pre bad post, (∀ e ∈ pre, is_valid_email e = true) →
      is_valid_email bad = false →
      validate_emails (pre ++ bad :: post) =
        Except.error (invalidEmailMsg bad)) := by
  refine ⟨rfl, ?_, ?_⟩
  · intro emails h
    induction emails with
    | nil => rfl
    | cons e rest ih =>
      have he : is_valid_email e = true := h e (by simp)
      simp only [validate_emails, he, if_true]
      exact ih (fun x hx => h x (by simp [hx]))
  · intro pre bad post hpre hbad
    induction pre with
    | nil => simp [validate_emails, hbad]
    | cons e rest ih =>
      have he : is_valid_email e = true := hpre e (by simp)
      simp only [List.cons_append, validate_emails, he, if_true]
      exact ih (fun x hx => hpre x (by simp [hx]))

/-- Witness for C6: the first invalid address is the one named, and
the valid entry before it is skipped. -/
theorem c6_validate_emails_first_failure_witness :
    validate_emails ["a@b.com", "not-an-address", "c@d.com"] =
      Except.error (invalidEmailMsg "not-an-address") :=
  c6_validate_emails_first_failure.2.2 ["a@b.com"] "not-an-address" ["c@d.com"]
    (by decide) (by decide)

/-- C7: `parse_email_list` is exactly split-on-comma, strip each
piece, drop the pieces that strip to empty; the result is a sublist
of the stripped pieces (order and duplicates preserved), contains no
empty entry, and the empty string — or any input all of whose pieces
strip to empty — yields the empty list, not an error. -/
theorem c7_parse_email_list_spec :
    (∀ s, parse_email_list s =
      ((splitStr ',' s).map strip).filter (fun e => e != "")) ∧
    (∀ s, (parse_email_list s).Sublist ((splitStr ',' s).map strip)) ∧
    (∀ s, ∀ e ∈ parse_email_list s, e ≠ "") ∧
    parse_email_list "" = [] ∧
    (∀ s, ((splitStr ',' s).map strip).all (fun e => e == "") = true →
      parse_email_list s = []) := by
  refine ⟨fun s => rfl, fun s => List.filter_sublist _, ?_, rfl, ?_⟩
  · intro s e he
    simp only [parse_email_list, List.mem_filter] at he
    simpa using he.2
  · intro s h
    rw [List.eq_nil_iff_forall_not_mem]
    intro a ha
    simp only [parse_email_list, List.mem_filter] at ha
    have hx := List.all_eq_true.mp h a ha.1
    simp only [beq_iff_eq] at hx
    simp [hx] at ha

/-- Witness for C7: an input of only blank/empty segments yields the
empty list. -/
theorem c7_parse_email_list_spec_witness :
    parse_email_list " , ,," = [] :=
  c7_parse_email_list_spec.2.2.2.2 " , ,," (by decide)

/-- The submission-phase trace is the body trace followed by a `quit`
exactly when the session object was assigned. -/
theorem submissionPhase_snd (config : Config) (net : SmtpNet)
    (r : List String) (m : String) :
    (submissionPhase config net r m).2 =
      (submissionBody config net r m).2.2 ++
        (if (submissionBody config net r m).2.1 then [Event.smtpQuit] else []) := by
  rcases hb : submissionBody config net r m with ⟨br, bset, bevs⟩
  cases bset with
  | false => simp [submissionPhase, hb]
  | true =>
    cases hq : net.quit with
    | none => simp [submissionPhase, hb, hq]
    | some e => cases hk : e.kind.isSmtp <;> simp [submissionPhase, hb, hq, hk]

/-- Every submission-phase event is a body event or the final quit. -/
theorem submissionPhase_mem_cases (config : Config) (net : SmtpNet)
    (r : List String) (m : String) :
    ∀ ev ∈ (submissionPhase config net r m).2,
      ev ∈ (submissionBody config net r m).2.2 ∨ ev = Event.smtpQuit := by
  intro ev hev
  rw [submissionPhase_snd] at hev
  rcases List.mem_append.mp hev with h | h
  · exact Or.inl h
  · right
    cases hb : (submissionBody config net r m).2.1 with
    | false => rw [hb] at h; simp at h
    | true => rw [hb] at h; simpa using h

/-- Exact trace of the submission body in STARTTLS mode: plaintext
connect, greeting, upgrade with the default-verifying context, second
greeting, then login and sendmail, each step cut short by the first
failing oracle. -/
theorem submissionBody_tls_trace (config : Config) (net : SmtpNet)
    (r : List String) (m : String) (h : config.smtp_use_tls = true) :
    (submissionBody config net r m).2.2 =
      Event.connectPlain config.smtp_host config.smtp_port SMTP_TIMEOUT ::
        (match net.connectPlain with
         | some _ => []
         | none =>
           Event.ehlo ::
             (match net.ehlo1 with
              | some _ => []
              | none =>
                Event.startTls true ::
                  (match net.starttls with
                   | some _ => []
                   | none =>
                     Event.ehlo ::
                       (match net.ehlo2 with
                        | some _ => []
                        | none =>
                          Event.smtpLogin config.username config.password ::
                            (match net.login with
                             | some _ => []
                             | none => [Event.sendmail config.username r m]))))) := by
  cases hcp : net.connectPlain <;> cases he1 : net.ehlo1 <;> cases hst : net.starttls <;>
    cases he2 : net.ehlo2 <;> cases hlo : net.login <;> cases hse : net.sendmail <;>
    simp [submissionBody, afterConnect, h, hcp, he1, hst, he2, hlo, hse]

/-- Exact trace of the submission body in implicit-TLS mode: one
TLS-wrapped connect with the default-verifying context, then login
and sendmail, each step cut short by the first failing oracle. -/
theorem submissionBody_ssl_trace (config : Config) (net : SmtpNet)
    (r : List String) (m : String) (h : config.smtp_use_tls = false) :
    (submissionBody config net r m).2.2 =
      Event.connectSsl config.smtp_host config.smtp_port true SMTP_TIMEOUT ::
        (match net.connectSsl with
         | some _ => []
         | none =>
           Event.smtpLogin config.username config.password ::
             (match net.login with
              | some _ => []
              | none => [Event.sendmail config.username r m])) := by
  cases hcs : net.connectSsl <;> cases hlo : net.login <;> cases hse : net.sendmail <;>
    simp [submissionBody, afterConnect, h, hcs, hlo, hse]

/-- C8: the session-establishment sequence is determined by
`smtp_use_tls`.  When true, the trace begins with a plaintext
connect, and when each step succeeds the first four actions are
connect, greeting, TLS upgrade with the default-verifying context,
second greeting; no implicit-TLS connect ever occurs.  When false,
the trace begins with an implicit-TLS connect using the same
default-verifying context, and no upgrade, greeting, or plaintext
connect ever occurs. -/
theorem c8_tls_mode_sequencing (config : Config) (net : SmtpNet)
    (r : List String) (m : String) :
    (config.smtp_use_tls = true →
      ((submissionPhase config net r m).2.head? =
          some (Event.connectPlain config.smtp_host config.smtp_port SMTP_TIMEOUT)) ∧
      (net.connectPlain = none → net.ehlo1 = none → net.starttls = none →
        net.ehlo2 = none →
        (submissionPhase config net r m).2.take 4 =
          [Event.connectPlain config.smtp_host config.smtp_port SMTP_TIMEOUT,
           Event.ehlo, Event.startTls true, Event.ehlo]) ∧
      (∀ hs p dc t, Event.connectSsl hs p dc t ∉ (submissionPhase config net r m).2)) ∧
    (config.smtp_use_tls = false →
      ((submissionPhase config net r m).2.head? =
          some (Event.connectSsl config.smtp_host config.smtp_port true SMTP_TIMEOUT)) ∧
      (∀ b, Event.startTls b ∉ (submissionPhase config net r m).2) ∧
      Event.ehlo ∉ (submissionPhase config net r m).2 ∧
      (∀ hs p t, Event.connectPlain hs p t ∉ (submissionPhase config net r m).2)) := by
  constructor
  · intro htls
    refine ⟨?_, ?_, ?_⟩
    · rw [submissionPhase_snd, submissionBody_tls_trace config net r m htls]
      simp
    · intro h1 h2 h3 h4
      rw [submissionPhase_snd, submissionBody_tls_trace config net r m htls,
        h1, h2, h3, h4]
      cases net.login <;> simp
    · intro hs p dc t hmem
      rcases submissionPhase_mem_cases config net r m _ hmem with hin | hin
      · rw [submissionBody_tls_trace config net r m htls] at hin
        rcases hcp : net.connectPlain <;> rcases he1 : net.ehlo1 <;>
          rcases hst : net.starttls <;> rcases he2 : net.ehlo2 <;>
          rcases hlo : net.login <;>
          simp [hcp, he1, hst, he2, hlo] at hin
      · cases hin
  · intro hssl
    refine ⟨?_, ?_, ?_, ?_⟩
    · rw [submissionPhase_snd, submissionBody_ssl_trace config net r m hssl]
      simp
    · intro b hmem
      rcases submissionPhase_mem_cases config net r m _ hmem with hin | hin
      · rw [submissionBody_ssl_trace config net r m hssl] at hin
        rcases hcs : net.connectSsl <;> rcases hlo : net.login <;>
          simp [hcs, hlo] at hin
      · cases hin
    · intro hmem
      rcases submissionPhase_mem_cases config net r m _ hmem with hin | hin
      · rw [submissionBody_ssl_trace config net r m hssl] at hin
        rcases hcs : net.connectSsl <;> rcases hlo : net.login <;>
          simp [hcs, hlo] at hin
      · cases hin
    · intro hs p t hmem
      rcases submissionPhase_mem_cases config net r m _ hmem with hin | hin
      · rw [submissionBody_ssl_trace config net r m hssl] at hin
        rcases hcs : net.connectSsl <;> rcases hlo : net.login <;>
          simp [hcs, hlo] at hin
      · cases hin

/-- Witness for C8: a concrete STARTTLS run has the two-greeting
upgrade prefix, and a concrete implicit-TLS run starts TLS-wrapped. -/
theorem c8_tls_mode_sequencing_witness :
    (submissionPhase cfgTls snetOk ["a@b.com"] "m").2.take 4 =
      [Event.connectPlain cfgTls.smtp_host cfgTls.smtp_port SMTP_TIMEOUT,
       Event.ehlo, Event.startTls true, Event.ehlo] ∧
    (submissionPhase cfgSsl snetOk ["a@b.com"] "m").2.head? =
      some (Event.connectSsl cfgSsl.smtp_host cfgSsl.smtp_port true SMTP_TIMEOUT) :=
  ⟨((c8_tls_mode_sequencing cfgTls snetOk ["a@b.com"] "m").1 (by decide)).2.1
      (by decide) (by decide) (by decide) (by decide),
   ((c8_tls_mode_sequencing cfgSsl snetOk ["a@b.com"] "m").2 (by decide)).1⟩

/-- C9: with an empty CC list the built message has no `Cc` header at
all, and the handler's success text has no CC suffix; with a
non-empty CC list the success text is
`Email sent successfully to {toList}` + ` (CC: {ccList})`. -/
theorem c9_cc_handling :
    (∀ u to_list subject d, ∀ hd ∈ buildHeaders u to_list [] subject d,
      hd.1 ≠ "Cc") ∧
    (∀ config snet inet toRaw (ccOpt : Option String) subjRaw bodyRaw d i,
      ccListOf ccOpt = [] →
      (parse_email_list toRaw).isEmpty = false →
      validate_emails (parse_email_list toRaw) = Except.ok () →
      subjRaw ≠ "" →
      (send_email_smtp config snet inet (parse_email_list toRaw) []
          subjRaw bodyRaw d i).1 = Except.ok () →
      (handle_send_email (Except.ok config) snet inet
          ⟨some toRaw, ccOpt, some subjRaw, some bodyRaw⟩ d i).1 =
        "Email sent successfully to " ++ joinComma (parse_email_list toRaw)) ∧
    (∀ config snet inet toRaw ccRaw subjRaw bodyRaw d i,
      (parse_email_list toRaw).isEmpty = false →
      validate_emails (parse_email_list toRaw) = Except.ok () →
      ccListOf (some ccRaw) ≠ [] →
      validate_emails (ccListOf (some ccRaw)) = Except.ok () →
      subjRaw ≠ "" →
      (send_email_smtp config snet inet (parse_email_list toRaw)
          (ccListOf (some ccRaw)) subjRaw bodyRaw d i).1 = Except.ok () →
      (handle_send_email (Except.ok config) snet inet
          ⟨some toRaw, some ccRaw, some subjRaw, some bodyRaw⟩ d i).1 =
        "Email sent successfully to " ++ joinComma (parse_email_list toRaw) ++
          " (CC: " ++ joinComma (ccListOf (some ccRaw)) ++ ")") := by
  refine ⟨?_, ?_, ?_⟩
  · intro u to_list subject d hd hmem
    simp [buildHeaders] at hmem
    rcases hmem with h | h | h | h <;> subst h <;> simp
  · intro config snet inet toRaw ccOpt subjRaw bodyRaw d i hcc hto hv hsubj hsend
    rcases hs2 : send_email_smtp config snet inet (parse_email_list toRaw) []
        subjRaw bodyRaw d i with ⟨sr, sevs⟩
    rw [hs2] at hsend
    simp only at hsend
    subst hsend
    simp [handle_send_email, hcc, hto, hv, hsubj, hs2]
  · intro config snet inet toRaw ccRaw subjRaw bodyRaw d i hto hv hcc hvc hsubj hsend
    rcases hs2 : send_email_smtp config snet inet (parse_email_list toRaw)
        (ccListOf (some ccRaw)) subjRaw bodyRaw d i with ⟨sr, sevs⟩
    rw [hs2] at hsend
    simp only at hsend
    subst hsend
    simp [handle_send_email, hto, hv, hcc, hvc, hsubj, hs2]

/-- Witness for C9: concrete requests with `cc=""`, with a
blank/comma-only cc, and with a non-empty CC. -/
theorem c9_cc_handling_witness :
    (handle_send_email (Except.ok cfgSsl) snetOk inetOk
        ⟨some "a@b.com", some "", some "S", some "B"⟩ "d" "i").1 =
      "Email sent successfully to " ++ joinComma (parse_email_list "a@b.com") ∧
    (handle_send_email (Except.ok cfgSsl) snetOk inetOk
        ⟨some "a@b.com", some " ,, ", some "S", some "B"⟩ "d" "i").1 =
      "Email sent successfully to " ++ joinComma (parse_email_list "a@b.com") ∧
    (handle_send_email (Except.ok cfgSsl) snetOk inetOk
        ⟨some "a@b.com", some "c@d.com", some "S", some "B"⟩ "d" "i").1 =
      "Email sent successfully to " ++ joinComma (parse_email_list "a@b.com") ++
        " (CC: " ++ joinComma (ccListOf (some "c@d.com")) ++ ")" :=
  ⟨c9_cc_handling.2.1 cfgSsl snetOk inetOk "a@b.com" (some "") "S" "B" "d" "i"
     (by decide) (by decide) (by decide) (by decide) (by decide),
   c9_cc_handling.2.1 cfgSsl snetOk inetOk "a@b.com" (some " ,, ") "S" "B" "d" "i"
     (by decide) (by decide) (by decide) (by decide) (by decide),
   c9_cc_handling.2.2 cfgSsl snetOk inetOk "a@b.com" "c@d.com" "S" "B" "d" "i"
     (by decide) (by decide) (by decide) (by decide) (by decide) (by decide)⟩

/-- C10: the handler's failure checks run in a fixed order —
configuration, then empty to-list, then to-address validation, then
cc-address validation, then empty subject — so the earliest failing
check determines the reported error; in particular an invalid
to-address wins over an empty subject. -/
theorem c10_check_order :
    (∀ ce snet inet args d i,
      handle_send_email (Except.error ce) snet inet args d i =
        (configErrorText ce, [])) ∧
    (∀ config snet inet (args : Args) d i,
      (parse_email_list (args.toArg.getD "")).isEmpty = true →
      handle_send_email (Except.ok config) snet inet args d i =
        ("Error: No valid recipients in \x27to\x27 field", [])) ∧
    (∀ config snet inet (args : Args) d i m,
      (parse_email_list (args.toArg.getD "")).isEmpty = false →
      validate_emails (parse_email_list (args.toArg.getD "")) = Except.error m →
      handle_send_email (Except.ok config) snet inet args d i =
        ("Error: Invalid email address - " ++ m, [])) ∧
    (∀ config snet inet (args : Args) d i m,
      (parse_email_list (args.toArg.getD "")).isEmpty = false →
      validate_emails (parse_email_list (args.toArg.getD "")) = Except.ok () →
      (if (ccListOf args.cc).isEmpty then Except.ok ()
       else validate_emails (ccListOf args.cc)) = Except.error m →
      handle_send_email (Except.ok config) snet inet args d i =
        ("Error: Invalid email address - " ++ m, [])) ∧
    (∀ config snet inet (args : Args) d i,
      (parse_email_list (args.toArg.getD "")).isEmpty = false →
      validate_emails (parse_email_list (args.toArg.getD "")) = Except.ok () →
      (if (ccListOf args.cc).isEmpty then Except.ok ()
       else validate_emails (ccListOf args.cc)) = Except.ok () →
      args.subject.getD "" = "" →
      handle_send_email (Except.ok config) snet inet args d i =
        ("Error: Subject cannot be empty", [])) := by
  refine ⟨?_, ?_, ?_, ?_, ?_⟩
  · intro ce snet inet args d i
    rfl
  · intro config snet inet args d i hto
    simp [handle_send_email, hto]
  · intro config snet inet args d i m hto hv
    simp [handle_send_email, hto, hv]
  · intro config snet inet args d i m hto hv hvc
    simp only [List.isEmpty_iff] at hvc
    simp [handle_send_email, hto, hv, hvc]
  · intro config snet inet args d i hto hv hvc hs
    simp only [List.isEmpty_iff] at hvc
    simp [handle_send_email, hto, hv, hvc, hs]

/-- Witness for C10: a request with both an invalid to-address and an
empty subject reports the `InvalidAddress` error, not `EmptySubject`. -/
theorem c10_check_order_witness :
    handle_send_email (Except.ok cfgSsl) snetOk inetOk
        ⟨some "bad address", none, some "", some "B"⟩ "d" "i" =
      ("Error: Invalid email address - " ++ invalidEmailMsg "bad address", []) :=
  c10_check_order.2.2.1 cfgSsl snetOk inetOk
    ⟨some "bad address", none, some "", some "B"⟩ "d" "i"
    (invalidEmailMsg "bad address") (by decide) (by decide)
